import Mathlib

/-!
Shallow embedding of the token / session / federation core of the
authentication service (files `src/utils/jwt.js`, `src/services/auth.service.js`,
`src/services/auth0.service.js`, `src/services/oauth.service.js`, and the
record-store client `src/services/db-client.js`).

Modelling conventions:
* The remote record store is state threaded explicitly (`DbState`); each
  db-client call becomes a pure function on that state.  The store-side
  mutation semantics (not part of this repository) are modelled from the
  spec's record-store contract and carry `Modelled from the spec:` comments.
* Asymmetric keys are abstracted: a key pair owns an opaque `material : Nat`;
  a signature made with a private key verifies under the corresponding public
  key, i.e. verification succeeds exactly when the verifying key pair's
  material equals the material that signed (`jwtVerify`).
* Randomness (token values, generated passwords, fresh ids) and network
  responses from third-party identity providers are determinized as explicit
  parameters.
* Thrown JavaScript values are `Except JsError`: `JsError.app` for the
  service's own `AppError` (message, HTTP status, error code) and
  `JsError.raw` for generic `Error(message)` throws.
* Timestamps are `Nat`; refresh-token expiries are milliseconds (JS `Date`),
  JWT claims are epoch seconds, matching the units of the source.
-/

/-- Error codes of `AuthErrorCodes` in `src/middlewares/errorHandler.js`, plus
the string-literal codes used directly in `jwt.js` and the federation
services. -/
inductive ErrCode where
  | INVALID_CREDENTIALS
  | USER_NOT_FOUND
  | EMAIL_ALREADY_IN_USE
  | TOKEN_EXPIRED
  | TOKEN_INVALID
  | TOKEN_REQUIRED
  | INVALID_REFRESH_TOKEN
  | UNAUTHORIZED
  | INVALID_TOKEN_PURPOSE
  | INVALID_VERIFICATION_TOKEN
  | SYNC_ERROR
  | EMAIL_REQUIRED
  | OAUTH_SYNC_ERROR
  deriving DecidableEq, Repr

/-- The `AppError` class of `src/middlewares/errorHandler.js`:
message, HTTP status code, and stable error code. -/
structure AppError where
  message : String
  statusCode : Nat
  errorCode : ErrCode
  deriving DecidableEq, Repr

/-- A thrown JavaScript value: either an operational `AppError` or a plain
`Error(message)` (the code distinguishes them with `instanceof AppError`). -/
inductive JsError where
  | app : AppError → JsError
  | raw : String → JsError
  deriving DecidableEq, Repr

/-- Builds an `AppError` wrapped as a thrown value. -/
def appErr (m : String) (s : Nat) (c : ErrCode) : JsError :=
  .app ⟨m, s, c⟩

/-- Error code carried by a failed computation, if the failure is an
`AppError` (used to compare error kinds across runs). -/
def errCodeOf {α : Type} : Except JsError α → Option ErrCode
  | .error (.app e) => some e.errorCode
  | _ => none

/-- A user row of the external record store, as the services read and write
it (`id`, `email`, `password`, `roles`, `active`, `emailVerified`, profile
fields, federation provenance). -/
structure User where
  id : String
  email : String
  password : String
  roles : List String
  active : Bool
  emailVerified : Bool
  firstName : Option String
  lastName : Option String
  picture : Option String
  provider : Option String
  providerId : Option String
  deriving DecidableEq, Repr

/-- A signing key pair row: identifier `kid`, abstract key `material`
(standing for the PKCS8/SPKI pair of one underlying RSA key), algorithm,
and the active flag. -/
structure KeyPair where
  kid : String
  material : Nat
  algorithm : String
  active : Bool
  deriving DecidableEq, Repr

/-- A refresh-token record: opaque token value, owning user id, optional
client id, expiry (ms epoch) and nullable revocation timestamp. -/
structure RefreshTokenRec where
  token : String
  userId : String
  clientId : Option String
  expiresAt : Nat
  revokedAt : Option Nat
  deriving DecidableEq, Repr

/-- State of the external record store as seen through the db client.
`revokeStoreFails` injects an infrastructure failure of the outbound
revoke call (network/store error), which `jwt.js` catches. -/
structure DbState where
  users : List User
  keyPairs : List KeyPair
  refreshTokens : List RefreshTokenRec
  revokeStoreFails : Bool
  deriving DecidableEq, Repr

/-- Environment configuration used by the token code: issuer (`API_URL`),
audience (`FRONTEND_URL`), access-token lifetime in seconds (parsed
`ACCESS_TOKEN_EXPIRES_IN`, default 15m) and refresh-token lifetime in days
(parsed `REFRESH_TOKEN_EXPIRES_IN`, default 7d). -/
structure Env where
  apiUrl : String
  frontendUrl : String
  accessTokenExpiresSecs : Nat
  refreshTokenExpiresDays : Nat
  deriving DecidableEq, Repr

/-- `DbServiceClient.getUserByEmail`: lookup by email. -/
def getUserByEmail (db : DbState) (email : String) : Option User :=
  db.users.find? (fun u => u.email == email)

/-- `DbServiceClient.getUserById`: lookup by id. -/
def getUserById (db : DbState) (id : String) : Option User :=
  db.users.find? (fun u => u.id == id)

/-- Modelled from the spec: the record-store collaborator's
`verifyPassword(userId, plaintext) -> bool` (§6) — the store owns password
checking; modelled as comparison against the stored password field. -/
def verifyPassword (db : DbState) (userId pw : String) : Bool :=
  match getUserById db userId with
  | some u => u.password == pw
  | none => false

/-- `DbServiceClient.getKeyPairByKid`: resolve a key pair (active or
retired) by its `kid`; `null` when absent (404). -/
def getKeyPairByKid (db : DbState) (kid : String) : Option KeyPair :=
  db.keyPairs.find? (fun k => k.kid == kid)

/-- `DbServiceClient.getActiveKeyPair`: the currently active key pair,
`null` when none (404). -/
def getActiveKeyPairDb (db : DbState) : Option KeyPair :=
  db.keyPairs.find? (fun k => k.active)

/-- `getActiveKeyPair` of `jwt.js` (catches store errors and returns null;
the success path is the db-client lookup). -/
def getActiveKeyPair (db : DbState) : Option KeyPair :=
  getActiveKeyPairDb db

/-- `DbServiceClient.getRefreshTokenByValue`: fetch a refresh-token record
by its opaque value; `null` when absent (404). -/
def getRefreshTokenByValue (db : DbState) (token : String) : Option RefreshTokenRec :=
  db.refreshTokens.find? (fun r => r.token == token)

/-- Modelled from the spec: the record store persists a freshly created
refresh-token record (`createRefreshToken`, §6). -/
def dbCreateRefreshToken (db : DbState) (tokenRec : RefreshTokenRec) : DbState :=
  { db with refreshTokens := tokenRec :: db.refreshTokens }

/-- Modelled from the spec: how the record store's `revokeRefreshTokenByValue`
(§4.2 `revoke`) treats one record — marks it revoked when its value matches
and it is not yet revoked (idempotent: an already revoked record keeps its
original revocation timestamp). -/
def revokeMark (token : String) (now : Nat) (r : RefreshTokenRec) : RefreshTokenRec :=
  if r.token == token && r.revokedAt == none then { r with revokedAt := some now } else r

/-- Modelled from the spec: see `revokeMark`; the store call fails
(`Except.error`) when `revokeStoreFails` is set, leaving the store
unchanged, and otherwise marks matching records revoked and reports whether
a record with that value exists. -/
def dbRevokeRefreshToken (db : DbState) (token : String) (now : Nat) :
    Except Unit (Bool × DbState) :=
  if db.revokeStoreFails then .error ()
  else
    let found := db.refreshTokens.any (fun r => r.token == token)
    .ok (found,
      { db with refreshTokens := db.refreshTokens.map (revokeMark token now) })

/-- JWT protected header: algorithm, key identifier, type. -/
structure JwtHeader where
  alg : String
  kid : Option String
  typ : String
  deriving DecidableEq, Repr

/-- JWT claim set covering the claims this service issues: subject, optional
email / roles / scope / purpose, issuer, audience, issued-at and expiry
(epoch seconds). -/
structure JwtPayload where
  sub : String
  email : Option String
  roles : Option (List String)
  scope : Option String
  purpose : Option String
  iss : String
  aud : String
  iat : Nat
  exp : Nat
  deriving DecidableEq, Repr

/-- A signed compact token, abstractly: header, payload, and the material of
the key that produced the signature. -/
structure Jwt where
  header : JwtHeader
  payload : JwtPayload
  sig : Nat
  deriving DecidableEq, Repr

/-- Failure kinds of `jose.jwtVerify`: `ERR_JWT_EXPIRED` versus every other
signature/claim failure (the code only discriminates these two). -/
inductive JoseError where
  | expired
  | invalid
  deriving DecidableEq, Repr

/-- Semantics of `jose.jwtVerify(token, publicKey, {issuer, audience})`:
signature must have been produced by the key with the given material, issuer
and audience claims must match, and the `exp` claim must be in the future
(`exp ≤ now` raises `ERR_JWT_EXPIRED`). -/
def jwtVerify (tok : Jwt) (pubMaterial : Nat) (issuer audience : String) (now : Nat) :
    Except JoseError JwtPayload :=
  if tok.sig ≠ pubMaterial then .error .invalid
  else if tok.payload.iss ≠ issuer then .error .invalid
  else if tok.payload.aud ≠ audience then .error .invalid
  else if tok.payload.exp ≤ now then .error .expired
  else .ok tok.payload

/-- `generateAccessToken` of `jwt.js`: fetch the active key pair (generic
`Error` when none), sign `{sub, email, roles, scope}` with it, header
carrying its `alg` and `kid`, issuer `API_URL`, audience `FRONTEND_URL`,
expiry now + configured lifetime. -/
def generateAccessToken (user : User) (db : DbState) (env : Env) (now : Nat) :
    Except JsError Jwt :=
  match getActiveKeyPair db with
  | none => .error (.raw "Aucune paire de clés active trouvée")
  | some activeKeyPair =>
    .ok {
      header := { alg := activeKeyPair.algorithm, kid := some activeKeyPair.kid, typ := "JWT" }
      payload := {
        sub := user.id
        email := some user.email
        roles := some user.roles
        scope := some "openid profile email"
        purpose := none
        iss := env.apiUrl
        aud := env.frontendUrl
        iat := now
        exp := now + env.accessTokenExpiresSecs }
      sig := activeKeyPair.material }

/-- `generateRefreshToken` of `jwt.js`: the token value is fresh randomness
(parameter `fresh`), expiry is now plus the configured number of days, and
the record is persisted via the store before the value is returned. -/
def generateRefreshToken (userId : String) (db : DbState) (env : Env) (now : Nat)
    (fresh : String) (clientId : Option String) : String × DbState :=
  let expiresAt := now + env.refreshTokenExpiresDays * 86400000
  (fresh, dbCreateRefreshToken db
    { token := fresh, userId := userId, clientId := clientId,
      expiresAt := expiresAt, revokedAt := none })

/-- `verifyAccessToken` of `jwt.js`: decode the unverified header; fail
`TOKEN_INVALID` when the `kid` is missing (JS falsy: absent or empty);
resolve the key pair by `kid` through the store, failing `TOKEN_INVALID`
when unresolvable; then `jose.jwtVerify` against that public key with
pinned issuer/audience, mapping `ERR_JWT_EXPIRED` to `TOKEN_EXPIRED` and
every other failure to `TOKEN_INVALID`. -/
def verifyAccessToken (tok : Jwt) (db : DbState) (env : Env) (now : Nat) :
    Except JsError JwtPayload :=
  match tok.header.kid with
  | none => .error (appErr "Token invalide" 401 .TOKEN_INVALID)
  | some kid =>
    if kid = "" then .error (appErr "Token invalide" 401 .TOKEN_INVALID)
    else
      match getKeyPairByKid db kid with
      | none => .error (appErr "Clé de signature introuvable" 401 .TOKEN_INVALID)
      | some keyPair =>
        match jwtVerify tok keyPair.material env.apiUrl env.frontendUrl now with
        | .ok payload => .ok payload
        | .error .expired => .error (appErr "Token expiré" 401 .TOKEN_EXPIRED)
        | .error .invalid => .error (appErr "Token invalide" 401 .TOKEN_INVALID)

/-- `verifyRefreshToken` of `jwt.js`: fetch the record by value; fail
`INVALID_REFRESH_TOKEN` when absent, `TOKEN_EXPIRED` when past expiry,
`TOKEN_INVALID` when already revoked; otherwise return the record. -/
def verifyRefreshToken (token : String) (db : DbState) (now : Nat) :
    Except JsError RefreshTokenRec :=
  match getRefreshTokenByValue db token with
  | none => .error (appErr "Token de rafraîchissement invalide" 401 .INVALID_REFRESH_TOKEN)
  | some tokenRec =>
    if tokenRec.expiresAt < now then
      .error (appErr "Token de rafraîchissement expiré" 401 .TOKEN_EXPIRED)
    else if tokenRec.revokedAt.isSome then
      .error (appErr "Token de rafraîchissement révoqué" 401 .TOKEN_INVALID)
    else
      .ok tokenRec

/-- `revokeRefreshToken` of `jwt.js`: delegate to the store and return its
success boolean; every store error is caught and turned into `false`
(never rethrown). -/
def revokeRefreshToken (token : String) (db : DbState) (now : Nat) : Bool × DbState :=
  match dbRevokeRefreshToken db token now with
  | .error _ => (false, db)
  | .ok (success, db') => (success, db')

/-- `generateEmailVerificationToken` of `jwt.js`: sign `{sub, purpose:
email_verification}` with the active key pair, issuer/audience as for access
tokens, 24h expiry. -/
def generateEmailVerificationToken (user : User) (db : DbState) (env : Env) (now : Nat) :
    Except JsError Jwt :=
  match getActiveKeyPair db with
  | none => .error (.raw "Aucune paire de clés active trouvée pour la vérification d\x27email")
  | some activeKeyPair =>
    .ok {
      header := { alg := activeKeyPair.algorithm, kid := some activeKeyPair.kid, typ := "JWT" }
      payload := {
        sub := user.id
        email := none
        roles := none
        scope := none
        purpose := some "email_verification"
        iss := env.apiUrl
        aud := env.frontendUrl
        iat := now
        exp := now + 86400 }
      sig := activeKeyPair.material }

/-- `verifyEmailVerificationToken` of `jwt.js`: the key resolver always uses
the currently ACTIVE key pair (the header `kid` is ignored); a missing active
key or any `jose` failure (including expiry) is caught and mapped to
`INVALID_VERIFICATION_TOKEN` (401); a payload whose `purpose` claim differs
from `email_verification` fails with the distinct `INVALID_TOKEN_PURPOSE`
(400) kind. -/
def verifyEmailVerificationToken (tok : Jwt) (db : DbState) (env : Env) (now : Nat) :
    Except JsError JwtPayload :=
  match getActiveKeyPair db with
  | none => .error (appErr "Token de vérification invalide ou expiré" 401 .INVALID_VERIFICATION_TOKEN)
  | some key =>
    match jwtVerify tok key.material env.apiUrl env.frontendUrl now with
    | .error _ => .error (appErr "Token de vérification invalide ou expiré" 401 .INVALID_VERIFICATION_TOKEN)
    | .ok payload =>
      if payload.purpose ≠ some "email_verification" then
        .error (appErr "Token invalide (mauvais usage)" 400 .INVALID_TOKEN_PURPOSE)
      else
        .ok payload

/-- A partial user update as sent to the record store's `updateUser`: a field
that is `none` is absent from the update payload; `some v` sets the stored
field to `v` (for nullable profile fields, `some none` clears it). -/
structure UserUpdate where
  email : Option String := none
  firstName : Option (Option String) := none
  lastName : Option (Option String) := none
  picture : Option (Option String) := none
  emailVerified : Option Bool := none
  roles : Option (List String) := none
  provider : Option (Option String) := none
  providerId : Option (Option String) := none
  deriving DecidableEq, Repr

/-- Modelled from the spec: the record store applies exactly the fields
present in an update payload ("updates mutable profile fields only", §3). -/
def applyUpdate (u : User) (p : UserUpdate) : User :=
  { u with
    email := p.email.getD u.email
    firstName := p.firstName.getD u.firstName
    lastName := p.lastName.getD u.lastName
    picture := p.picture.getD u.picture
    emailVerified := p.emailVerified.getD u.emailVerified
    roles := p.roles.getD u.roles
    provider := p.provider.getD u.provider
    providerId := p.providerId.getD u.providerId }

/-- Modelled from the spec: the record store's `updateUser(id, payload)`
updates the row with that id and returns the updated row (`null`/404 when
the id is unknown). -/
def updateUser (db : DbState) (id : String) (p : UserUpdate) : Option User × DbState :=
  match getUserById db id with
  | none => (none, db)
  | some u =>
    (some (applyUpdate u p),
     { db with users := db.users.map (fun v => if v.id == id then applyUpdate v p else v) })

/-- Payload for the record store's `createUser` as the services send it;
`roles` and `active` may be absent (store defaults). -/
structure CreateUserPayload where
  email : String
  password : String
  firstName : Option String
  lastName : Option String
  picture : Option String
  emailVerified : Bool
  roles : Option (List String)
  active : Option Bool
  provider : Option String
  providerId : Option String
  deriving DecidableEq, Repr

/-- Modelled from the spec: the record store creates a user row from the
payload, assigning a fresh id (determinized as `newId`); absent `roles`
default to `USER` and absent `active` defaults to true. -/
def dbCreateUser (db : DbState) (newId : String) (p : CreateUserPayload) : User × DbState :=
  let u : User := {
    id := newId, email := p.email, password := p.password,
    roles := p.roles.getD ["USER"], active := p.active.getD true,
    emailVerified := p.emailVerified, firstName := p.firstName,
    lastName := p.lastName, picture := p.picture,
    provider := p.provider, providerId := p.providerId }
  (u, { db with users := u :: db.users })

/-- Result of `AuthService.login`: the user and the freshly issued local
access and refresh tokens. -/
structure LoginResult where
  user : User
  accessToken : Jwt
  refreshToken : String
  deriving DecidableEq, Repr

/-- `AuthService.login(email, password)`: unknown email fails
`INVALID_CREDENTIALS` (401); a deactivated account fails `UNAUTHORIZED`
(403); a wrong password (store-delegated check) fails `INVALID_CREDENTIALS`
(401); on success one access token and one refresh token are issued. -/
def AuthService.login (email password : String) (db : DbState) (env : Env)
    (now : Nat) (fresh : String) : Except JsError (LoginResult × DbState) :=
  match getUserByEmail db email with
  | none => .error (appErr "Email ou mot de passe incorrect" 401 .INVALID_CREDENTIALS)
  | some user =>
    if !user.active then
      .error (appErr "Ce compte a été désactivé" 403 .UNAUTHORIZED)
    else if !(verifyPassword db user.id password) then
      .error (appErr "Email ou mot de passe incorrect" 401 .INVALID_CREDENTIALS)
    else
      match generateAccessToken user db env now with
      | .error e => .error e
      | .ok accessToken =>
        let (refreshTok, db') := generateRefreshToken user.id db env now fresh none
        .ok ({ user := user, accessToken := accessToken, refreshToken := refreshTok }, db')

/-- Result of `AuthService.refreshToken`: success flag and the new token
pair. -/
structure RotateResult where
  success : Bool
  accessToken : Jwt
  refreshToken : String
  deriving DecidableEq, Repr

/-- `AuthService.refreshToken(refreshToken)` (the rotate operation): verify
the presented token via `verifyRefreshToken`; resolve the owning user,
failing `UNAUTHORIZED` when missing or inactive; issue a new access token and
a new refresh token for the same user/client; then revoke the original token,
ignoring the revocation outcome; return success with the new pair. -/
def AuthService.refreshToken (token : String) (db : DbState) (env : Env)
    (now : Nat) (fresh : String) : Except JsError (RotateResult × DbState) :=
  match verifyRefreshToken token db now with
  | .error e => .error e
  | .ok tokenData =>
    match getUserById db tokenData.userId with
    | none => .error (appErr "Utilisateur non trouvé ou inactif" 401 .UNAUTHORIZED)
    | some user =>
      if !user.active then
        .error (appErr "Utilisateur non trouvé ou inactif" 401 .UNAUTHORIZED)
      else
        match generateAccessToken user db env now with
        | .error e => .error e
        | .ok accessToken =>
          let (newRefreshTok, db1) :=
            generateRefreshToken user.id db env now fresh tokenData.clientId
          let (_, db2) := revokeRefreshToken token db1 now
          .ok ({ success := true, accessToken := accessToken,
                 refreshToken := newRefreshTok }, db2)

/-- `AuthService.revokeToken(refreshToken)` (logout): delegates to the
revocation helper and wraps the boolean in a structured result, never
throwing. -/
def AuthService.revokeToken (token : String) (db : DbState) (now : Nat) :
    (Bool × String) × DbState :=
  let (result, db') := revokeRefreshToken token db now
  ((result, if result then "Token révoqué avec succès" else "Échec de la révocation du token"), db')

/-- JavaScript `a || b` on an optional string: falls through when `a` is
absent (`undefined`/`null`) or the empty string (both falsy). -/
def jsOrS (a b : Option String) : Option String :=
  match a with
  | some s => if s = "" then b else some s
  | none => b

/-- JavaScript `a || null` on an optional string: an empty string collapses
to null. -/
def jsOrNull (a : Option String) : Option String :=
  match a with
  | some s => if s = "" then none else some s
  | none => a

/-- The profile asserted by the hosted identity platform (Auth0 `/userinfo`
response) as `syncAuth0User` reads it. -/
structure Auth0User where
  email : Option String
  email_verified : Option Bool
  given_name : Option String
  family_name : Option String
  name : Option String
  picture : Option String
  deriving DecidableEq, Repr

/-- The `userData.firstName` fallback chain of `syncAuth0User`:
`given_name || name?.split(' ')[0] || email`. -/
def auth0FirstName (auth0User : Auth0User) (email : String) : Option String :=
  jsOrS auth0User.given_name
    (jsOrS (auth0User.name.map (fun n => (n.splitOn " ").headD "")) (some email))

/-- The `userData.lastName` fallback chain of `syncAuth0User`:
`family_name || name?.split(' ').slice(1).join(' ') || 'User'`. -/
def auth0LastName (auth0User : Auth0User) : Option String :=
  jsOrS auth0User.family_name
    (jsOrS (auth0User.name.map (fun n => String.intercalate " " ((n.splitOn " ").drop 1)))
      (some "User"))

/-- `Auth0Service.syncAuth0User`: require an email; look up the local user by
email; build the profile payload (first/last name fallback chains,
`emailVerified := email_verified || false`, roles `USER`); update the
existing user with that payload, or create a new one with a generated strong
password (determinized as `genPw`) and `active: true`. -/
def Auth0Service.syncAuth0User (auth0User : Auth0User) (db : DbState)
    (newId genPw : String) : Except JsError (User × DbState) :=
  match auth0User.email with
  | none => .error (appErr "Email requis pour la synchronisation" 400 .SYNC_ERROR)
  | some email =>
    if email = "" then
      .error (appErr "Email requis pour la synchronisation" 400 .SYNC_ERROR)
    else
      match getUserByEmail db email with
      | some user =>
        match updateUser db user.id {
            email := some email
            firstName := some (auth0FirstName auth0User email)
            lastName := some (auth0LastName auth0User)
            picture := some (jsOrNull auth0User.picture)
            emailVerified := some (auth0User.email_verified.getD false)
            roles := some ["USER"] } with
        | (some updated, db') => .ok (updated, db')
        | (none, _) => .error (.raw "store error")
      | none =>
        let (created, db') := dbCreateUser db newId {
          email := email, password := genPw,
          firstName := auth0FirstName auth0User email, lastName := auth0LastName auth0User,
          picture := jsOrNull auth0User.picture,
          emailVerified := auth0User.email_verified.getD false,
          roles := some ["USER"], active := some true,
          provider := none, providerId := none }
        .ok (created, db')

/-- Result of `Auth0Service.authenticateWithAuth0`: this service's own
access/refresh tokens, the local user, and the provider tag — no field
carries provider-issued tokens. -/
structure Auth0AuthResult where
  success : Bool
  accessToken : Jwt
  refreshToken : String
  user : User
  provider : String
  deriving DecidableEq, Repr

/-- `Auth0Service.authenticateWithAuth0`: the Auth0 token verification and
`/userinfo` fetch are outbound provider calls, determinized as the already
fetched `auth0UserInfo`; the local user is synchronized, then local access
and refresh tokens are issued and returned (with `provider := auth0`). -/
def Auth0Service.authenticateWithAuth0 (auth0UserInfo : Auth0User) (db : DbState)
    (env : Env) (now : Nat) (fresh newId genPw : String) :
    Except JsError (Auth0AuthResult × DbState) :=
  match Auth0Service.syncAuth0User auth0UserInfo db newId genPw with
  | .error e => .error e
  | .ok (localUser, db1) =>
    match generateAccessToken localUser db1 env now with
    | .error e => .error e
    | .ok accessToken =>
      let (refreshTok, db2) := generateRefreshToken localUser.id db1 env now fresh none
      .ok ({ success := true, accessToken := accessToken, refreshToken := refreshTok,
             user := localUser, provider := "auth0" }, db2)

/-- The raw profile returned by a generic OAuth2 provider's userinfo
endpoint, after the GitHub email patch-up, as `normalizeUserInfo` reads it. -/
structure RawUserInfo where
  id : Option String
  email : Option String
  verified_email : Option Bool
  email_verified : Option Bool
  given_name : Option String
  family_name : Option String
  picture : Option String
  name : Option String
  avatar_url : Option String
  deriving DecidableEq, Repr

/-- The normalized federated identity (`normalizeUserInfo` output). -/
structure FederatedIdentity where
  providerId : Option String
  provider : String
  email : Option String
  emailVerified : Bool
  firstName : Option String
  lastName : Option String
  picture : Option String
  rawData : RawUserInfo
  deriving DecidableEq, Repr

/-- `OAuthService.normalizeUserInfo`: provider-specific mapping of the raw
profile into the normalized shape (google reads `verified_email`, github
reads `email_verified` and splits `name`; any other provider keeps the
defaults). -/
def OAuthService.normalizeUserInfo (provider : String) (raw : RawUserInfo) :
    FederatedIdentity :=
  let base : FederatedIdentity := {
    providerId := raw.id, provider := provider, email := raw.email,
    emailVerified := false, firstName := none, lastName := none,
    picture := none, rawData := raw }
  if provider = "google" then
    { base with
      emailVerified := raw.verified_email.getD false
      firstName := raw.given_name
      lastName := raw.family_name
      picture := raw.picture }
  else if provider = "github" then
    let withMeta := { base with
      emailVerified := raw.email_verified.getD false
      picture := raw.avatar_url }
    match raw.name with
    | some n =>
      if n = "" then withMeta
      else
        let nameParts := n.splitOn " "
        { withMeta with
          firstName := some (nameParts.headD "")
          lastName := jsOrNull (some (String.intercalate " " (nameParts.drop 1))) }
    | none => withMeta
  else base

/-- `OAuthService.syncOAuthUser`: look up the local user by email (a 404 is
tolerated); create one with a generated strong password when absent,
recording the federation provenance; otherwise update profile fields only —
the update payload carries first/last name, picture and provenance but no
email-verified flag. -/
def OAuthService.syncOAuthUser (oauthUser : FederatedIdentity) (db : DbState)
    (newId genPw : String) : Except JsError (User × DbState) :=
  match getUserByEmail db (oauthUser.email.getD "") with
  | none =>
    let (created, db') := dbCreateUser db newId {
      email := oauthUser.email.getD "", password := genPw,
      firstName := oauthUser.firstName, lastName := oauthUser.lastName,
      picture := oauthUser.picture,
      emailVerified := oauthUser.emailVerified,
      roles := none, active := none,
      provider := some oauthUser.provider, providerId := oauthUser.providerId }
    .ok (created, db')
  | some localUser =>
    match updateUser db localUser.id {
        firstName := some oauthUser.firstName
        lastName := some oauthUser.lastName
        picture := some oauthUser.picture
        provider := some (some oauthUser.provider)
        providerId := some oauthUser.providerId } with
    | (some updated, db') => .ok (updated, db')
    | (none, _) =>
      .error (appErr "Erreur interne lors de la synchronisation du compte" 500 .OAUTH_SYNC_ERROR)

/-- The token response obtained from a generic provider's code-for-token
exchange. -/
structure ProviderTokenData where
  access_token : String
  refresh_token : Option String
  expires_in : Option Nat
  deriving DecidableEq, Repr

/-- The `tokenData` field of the result `authenticateWithProvider` returns:
the provider-issued tokens, passed through to the caller. -/
structure OAuthTokenDataOut where
  accessToken : String
  refreshToken : Option String
  expiresIn : Option Nat
  deriving DecidableEq, Repr

/-- Result of `OAuthService.authenticateWithProvider`: this service's own
tokens, the local user, the provider tag, and a `tokenData` field carrying
the provider-issued tokens. -/
structure OAuthAuthResult where
  success : Bool
  accessToken : Jwt
  refreshToken : String
  user : User
  provider : String
  tokenData : OAuthTokenDataOut
  deriving DecidableEq, Repr

/-- `OAuthService.authenticateWithProvider`: the code-for-token exchange and
the userinfo fetch are outbound provider calls, determinized as `tokenData`
and `raw`; the profile is normalized, a missing or empty email fails
`EMAIL_REQUIRED`, the local user is synchronized, local tokens are issued,
and the result additionally exposes the provider tokens under `tokenData`. -/
def OAuthService.authenticateWithProvider (provider : String)
    (tokenData : ProviderTokenData) (raw : RawUserInfo) (db : DbState) (env : Env)
    (now : Nat) (fresh newId genPw : String) :
    Except JsError (OAuthAuthResult × DbState) :=
  match (OAuthService.normalizeUserInfo provider raw).email with
  | none => .error (appErr "Email requis pour l\x27authentification" 400 .EMAIL_REQUIRED)
  | some e =>
    if e = "" then
      .error (appErr "Email requis pour l\x27authentification" 400 .EMAIL_REQUIRED)
    else
      match OAuthService.syncOAuthUser (OAuthService.normalizeUserInfo provider raw) db newId genPw with
      | .error err => .error err
      | .ok (localUser, db1) =>
        match generateAccessToken localUser db1 env now with
        | .error err => .error err
        | .ok accessToken =>
          let (refreshTok, db2) := generateRefreshToken localUser.id db1 env now fresh none
          .ok ({ success := true, accessToken := accessToken, refreshToken := refreshTok,
                 user := localUser, provider := provider,
                 tokenData := {
                   accessToken := tokenData.access_token,
                   refreshToken := tokenData.refresh_token,
                   expiresIn := tokenData.expires_in } }, db2)

/-! Concrete fixtures used by witnesses and counterexamples. -/

/-- A retired (non-active) signing key pair. -/
def kpRetired : KeyPair := { kid := "k1", material := 1, algorithm := "RS256", active := false }

/-- The currently active signing key pair. -/
def kpActive : KeyPair := { kid := "k2", material := 2, algorithm := "RS256", active := true }

/-- A concrete environment. -/
def envW : Env :=
  { apiUrl := "https://api", frontendUrl := "https://front",
    accessTokenExpiresSecs := 900, refreshTokenExpiresDays := 7 }

/-- A concrete active local user whose email is already verified. -/
def userW : User :=
  { id := "u1", email := "alice@example.com", password := "pw1", roles := ["USER"],
    active := true, emailVerified := true, firstName := some "Alice", lastName := none,
    picture := none, provider := none, providerId := none }

/-- A concrete store with one user, a retired and an active key pair, and a
functioning revoke operation. -/
def dbW : DbState :=
  { users := [userW], keyPairs := [kpRetired, kpActive], refreshTokens := [],
    revokeStoreFails := false }

/-- The same store with a failing outbound revoke call. -/
def dbWfail : DbState := { dbW with revokeStoreFails := true }

/-- An already expired refresh-token record. -/
def rtExpired : RefreshTokenRec :=
  { token := "t-exp", userId := "u1", clientId := none, expiresAt := 10, revokedAt := none }

/-- An already revoked refresh-token record. -/
def rtRevoked : RefreshTokenRec :=
  { token := "t-rev", userId := "u1", clientId := none, expiresAt := 1000, revokedAt := some 5 }

/-- A live refresh-token record. -/
def rtLive : RefreshTokenRec :=
  { token := "t-live", userId := "u1", clientId := some "c1", expiresAt := 1000, revokedAt := none }

/-- A store populated with the three kinds of refresh-token records. -/
def dbRt : DbState :=
  { dbW with refreshTokens := [rtExpired, rtRevoked, rtLive] }

/-- The access token `generateAccessToken userW dbW envW 0` produces. -/
def tokW : Jwt :=
  { header := { alg := "RS256", kid := some "k2", typ := "JWT" }
    payload := { sub := "u1", email := some "alice@example.com", roles := some ["USER"],
                 scope := some "openid profile email", purpose := none,
                 iss := "https://api", aud := "https://front", iat := 0, exp := 900 }
    sig := 2 }

/-- C8: `verifyRefreshToken` classifies every presented token value
exhaustively: no record — `INVALID_REFRESH_TOKEN`; record past expiry —
`TOKEN_EXPIRED`; revoked record — `TOKEN_INVALID`; otherwise it returns the
record (which carries the owning user id and client id). -/
theorem verifyRefreshToken_classification (db : DbState) (t : String) (now : Nat) :
    (getRefreshTokenByValue db t = none →
      verifyRefreshToken t db now =
        .error (appErr "Token de rafraîchissement invalide" 401 .INVALID_REFRESH_TOKEN)) ∧
    (∀ r : RefreshTokenRec, getRefreshTokenByValue db t = some r →
      ((r.expiresAt < now →
          verifyRefreshToken t db now =
            .error (appErr "Token de rafraîchissement expiré" 401 .TOKEN_EXPIRED)) ∧
       (¬ r.expiresAt < now → r.revokedAt ≠ none →
          verifyRefreshToken t db now =
            .error (appErr "Token de rafraîchissement révoqué" 401 .TOKEN_INVALID)) ∧
       (¬ r.expiresAt < now → r.revokedAt = none →
          verifyRefreshToken t db now = .ok r))) := by
  refine ⟨fun h => by simp [verifyRefreshToken, h], fun r h => ⟨?_, ?_, ?_⟩⟩
  · intro hexp
    simp [verifyRefreshToken, h, hexp]
  · intro hexp hrev
    simp [verifyRefreshToken, h, hexp, Option.isSome_iff_ne_none, hrev]
  · intro hexp hrev
    simp [verifyRefreshToken, h, hexp, hrev]

/-- Witness for C8: the four classification branches evaluated on a concrete
store. -/
theorem verifyRefreshToken_classification_witness :
    verifyRefreshToken "t-none" dbRt 100 =
      .error (appErr "Token de rafraîchissement invalide" 401 .INVALID_REFRESH_TOKEN) ∧
    verifyRefreshToken "t-exp" dbRt 100 =
      .error (appErr "Token de rafraîchissement expiré" 401 .TOKEN_EXPIRED) ∧
    verifyRefreshToken "t-rev" dbRt 100 =
      .error (appErr "Token de rafraîchissement révoqué" 401 .TOKEN_INVALID) ∧
    verifyRefreshToken "t-live" dbRt 100 = .ok rtLive := by
  refine ⟨(verifyRefreshToken_classification dbRt "t-none" 100).1 rfl,
    ((verifyRefreshToken_classification dbRt "t-exp" 100).2 rtExpired rfl).1 (by decide),
    (((verifyRefreshToken_classification dbRt "t-rev" 100).2 rtRevoked rfl).2.1
      (by decide) (by decide)),
    (((verifyRefreshToken_classification dbRt "t-live" 100).2 rtLive rfl).2.2
      (by decide) rfl)⟩

/-- C9: `verifyAccessToken` fails with the `TOKEN_INVALID` kind (a 401
`AppError`, not `TOKEN_EXPIRED` and not an unclassified error) whenever the
header key identifier is missing (absent or empty, both JS-falsy) or does not
resolve to a stored key pair. -/
theorem verifyAccessToken_unresolved_kid_invalid (tok : Jwt) (db : DbState)
    (env : Env) (now : Nat) :
    (tok.header.kid = none →
      verifyAccessToken tok db env now = .error (appErr "Token invalide" 401 .TOKEN_INVALID)) ∧
    (tok.header.kid = some "" →
      verifyAccessToken tok db env now = .error (appErr "Token invalide" 401 .TOKEN_INVALID)) ∧
    (∀ k : String, tok.header.kid = some k → k ≠ "" → getKeyPairByKid db k = none →
      verifyAccessToken tok db env now =
        .error (appErr "Clé de signature introuvable" 401 .TOKEN_INVALID)) := by
  refine ⟨fun h => by simp [verifyAccessToken, h],
    fun h => by simp [verifyAccessToken, h],
    fun k hk hne hors => by simp [verifyAccessToken, hk, hne, hors]⟩

/-- Witness for C9: a token with no `kid` and a token with an unknown `kid`
both fail `TOKEN_INVALID` on a concrete store. -/
theorem verifyAccessToken_unresolved_kid_invalid_witness :
    verifyAccessToken { tokW with header := { tokW.header with kid := none } } dbW envW 0 =
      .error (appErr "Token invalide" 401 .TOKEN_INVALID) ∧
    verifyAccessToken { tokW with header := { tokW.header with kid := some "zz" } } dbW envW 0 =
      .error (appErr "Clé de signature introuvable" 401 .TOKEN_INVALID) := by
  refine ⟨(verifyAccessToken_unresolved_kid_invalid _ dbW envW 0).1 rfl,
    (verifyAccessToken_unresolved_kid_invalid _ dbW envW 0).2.2 "zz" rfl (by decide) rfl⟩

/-- C6: two-run indistinguishability of login failures — for any passwords,
a login with an email matching no user and a login with an existing active
user's email but a wrong password both fail with the identical
`INVALID_CREDENTIALS` error kind. -/
theorem login_failures_indistinguishable (db : DbState) (env : Env) (now : Nat)
    (fresh e1 e2 pw1 pw2 : String) (u : User)
    (h1 : getUserByEmail db e1 = none)
    (h2 : getUserByEmail db e2 = some u)
    (hact : u.active = true)
    (hpw : verifyPassword db u.id pw2 = false) :
    errCodeOf (AuthService.login e1 pw1 db env now fresh) = some .INVALID_CREDENTIALS ∧
    errCodeOf (AuthService.login e2 pw2 db env now fresh) = some .INVALID_CREDENTIALS ∧
    errCodeOf (AuthService.login e1 pw1 db env now fresh) =
      errCodeOf (AuthService.login e2 pw2 db env now fresh) := by
  have ha : errCodeOf (AuthService.login e1 pw1 db env now fresh) = some .INVALID_CREDENTIALS := by
    simp [AuthService.login, h1, errCodeOf, appErr]
  have hb : errCodeOf (AuthService.login e2 pw2 db env now fresh) = some .INVALID_CREDENTIALS := by
    simp [AuthService.login, h2, hact, hpw, errCodeOf, appErr]
  exact ⟨ha, hb, ha.trans hb.symm⟩

/-- Witness for C6: unknown email and wrong password on a concrete store
yield the same `INVALID_CREDENTIALS` code. -/
theorem login_failures_indistinguishable_witness :
    errCodeOf (AuthService.login "nobody@example.com" "x" dbW envW 0 "r1") =
      some .INVALID_CREDENTIALS ∧
    errCodeOf (AuthService.login "alice@example.com" "wrong" dbW envW 0 "r1") =
      some .INVALID_CREDENTIALS ∧
    errCodeOf (AuthService.login "nobody@example.com" "x" dbW envW 0 "r1") =
      errCodeOf (AuthService.login "alice@example.com" "wrong" dbW envW 0 "r1") :=
  login_failures_indistinguishable dbW envW 0 "r1" "nobody@example.com" "alice@example.com"
    "x" "wrong" userW rfl rfl rfl (by decide)

/-- C7: any token whose signature (against the active key), issuer, audience
and expiry verify but whose `purpose` claim is not `email_verification`
fails `verifyEmailVerificationToken` with the distinct `INVALID_TOKEN_PURPOSE`
kind (400), not the generic `INVALID_VERIFICATION_TOKEN` kind; in particular
every token issued by `generateAccessToken` carries no `purpose` claim. -/
theorem email_token_purpose_discrimination (tok : Jwt) (db : DbState) (env : Env)
    (now : Nat) (kp : KeyPair)
    (hact : getActiveKeyPair db = some kp)
    (hsig : tok.sig = kp.material)
    (hiss : tok.payload.iss = env.apiUrl)
    (haud : tok.payload.aud = env.frontendUrl)
    (hexp : ¬ tok.payload.exp ≤ now)
    (hpur : tok.payload.purpose ≠ some "email_verification") :
    verifyEmailVerificationToken tok db env now =
      .error (appErr "Token invalide (mauvais usage)" 400 .INVALID_TOKEN_PURPOSE) ∧
    ∀ (user : User) (now0 : Nat) (tok2 : Jwt),
      generateAccessToken user db env now0 = .ok tok2 → tok2.payload.purpose = none := by
  constructor
  · simp [verifyEmailVerificationToken, hact, jwtVerify, hsig, hiss, haud, hexp, hpur]
  · intro user now0 tok2 hgen
    simp [generateAccessToken, hact] at hgen
    simp [← hgen]

/-- Witness for C7: a concrete valid access token is rejected by
`verifyEmailVerificationToken` with the wrong-purpose kind. -/
theorem email_token_purpose_discrimination_witness :
    verifyEmailVerificationToken tokW dbW envW 100 =
      .error (appErr "Token invalide (mauvais usage)" 400 .INVALID_TOKEN_PURPOSE) ∧
    tokW.payload.purpose = none := by
  have h := email_token_purpose_discrimination tokW dbW envW 100 kpActive rfl rfl rfl rfl
    (by decide) (by decide)
  exact ⟨h.1, h.2 userW 0 tokW rfl⟩

/-- C2: round-trip of issuance and verification — for every user, if the
active key pair is resolvable by its own (non-empty) `kid` in the key
directory, then verifying the freshly issued access token before its expiry
instant succeeds and returns the same subject, email and roles asserted at
issuance. -/
theorem access_token_roundtrip (user : User) (db : DbState) (env : Env)
    (now now2 : Nat) (kp : KeyPair) (tok : Jwt)
    (hact : getActiveKeyPair db = some kp)
    (hkidres : getKeyPairByKid db kp.kid = some kp)
    (hkidne : kp.kid ≠ "")
    (hgen : generateAccessToken user db env now = .ok tok)
    (hfresh : now2 < now + env.accessTokenExpiresSecs) :
    verifyAccessToken tok db env now2 = .ok tok.payload ∧
    tok.payload.sub = user.id ∧
    tok.payload.email = some user.email ∧
    tok.payload.roles = some user.roles := by
  simp [generateAccessToken, hact] at hgen
  have hnotexp : ¬ tok.payload.exp ≤ now2 := by
    simp [← hgen]
    omega
  refine ⟨?_, by simp [← hgen], by simp [← hgen], by simp [← hgen]⟩
  have hkid : tok.header.kid = some kp.kid := by simp [← hgen]
  have hsig : tok.sig = kp.material := by simp [← hgen]
  have hiss : tok.payload.iss = env.apiUrl := by simp [← hgen]
  have haud : tok.payload.aud = env.frontendUrl := by simp [← hgen]
  simp [verifyAccessToken, hkid, hkidne, hkidres, jwtVerify, hsig, hiss, haud, hnotexp]

/-- Witness for C2: the concrete token issued at time 0 verifies at time 100
with the same subject, email and roles. -/
theorem access_token_roundtrip_witness :
    verifyAccessToken tokW dbW envW 100 = .ok tokW.payload ∧
    tokW.payload.sub = userW.id ∧
    tokW.payload.email = some userW.email ∧
    tokW.payload.roles = some userW.roles :=
  access_token_roundtrip userW dbW envW 0 100 kpActive tokW rfl rfl (by decide) rfl (by decide)

/-- C1: refresh rotation is single-use — for a refresh token freshly issued
by `generateRefreshToken` (sequential execution: owning user active, active
key pair present, rotation before expiry, a functioning store, and fresh
randomness distinct from the original value), the first rotate succeeds and
returns the new refresh token, and a second rotate presenting the same
original token fails with a `TOKEN_INVALID` error (which is one of the
`INVALID_REFRESH_TOKEN`/`TOKEN_INVALID` kinds claimed). -/
theorem refresh_rotation_single_use (db0 : DbState) (env : Env)
    (userId fresh fresh2 : String) (clientId : Option String)
    (now1 now2 : Nat) (user : User) (kp : KeyPair)
    (hf2 : fresh2 ≠ fresh)
    (huser : getUserById db0 userId = some user)
    (hactive : user.active = true)
    (hkey : getActiveKeyPair db0 = some kp)
    (hnotexp : ¬ now1 + env.refreshTokenExpiresDays * 86400000 < now2)
    (hrev : db0.revokeStoreFails = false) :
    ∃ res db2,
      AuthService.refreshToken fresh
        (generateRefreshToken userId db0 env now1 fresh clientId).2 env now2 fresh2 =
        .ok (res, db2) ∧
      res.success = true ∧ res.refreshToken = fresh2 ∧
      AuthService.refreshToken fresh db2 env now2 fresh2 =
        .error (appErr "Token de rafraîchissement révoqué" 401 .TOKEN_INVALID) := by
  have hbe : (fresh2 == fresh) = false := beq_eq_false_iff_ne.mpr hf2
  have huser' : List.find? (fun u => u.id == userId) db0.users = some user := huser
  have hkey' : List.find? (fun k => k.active) db0.keyPairs = some kp := hkey
  refine ⟨{ success := true,
            accessToken := {
              header := { alg := kp.algorithm, kid := some kp.kid, typ := "JWT" }
              payload := { sub := user.id, email := some user.email,
                           roles := some user.roles, scope := some "openid profile email",
                           purpose := none, iss := env.apiUrl, aud := env.frontendUrl,
                           iat := now2, exp := now2 + env.accessTokenExpiresSecs }
              sig := kp.material }
            refreshToken := fresh2 },
          { db0 with refreshTokens :=
              ⟨fresh2, user.id, clientId, now2 + env.refreshTokenExpiresDays * 86400000, none⟩ ::
              ⟨fresh, userId, clientId, now1 + env.refreshTokenExpiresDays * 86400000, some now2⟩ ::
              db0.refreshTokens.map (revokeMark fresh now2) },
          ?_, rfl, rfl, ?_⟩
  · simp [AuthService.refreshToken, verifyRefreshToken, getRefreshTokenByValue,
      generateRefreshToken, dbCreateRefreshToken, List.find?, hnotexp, getUserById,
      huser', hactive, generateAccessToken, getActiveKeyPair,
      getActiveKeyPairDb, hkey', revokeRefreshToken, dbRevokeRefreshToken, hrev,
      revokeMark, hbe]
  · simp [AuthService.refreshToken, verifyRefreshToken, getRefreshTokenByValue,
      List.find?, hbe, hnotexp]

/-- Witness for C1: a concrete token issued at time 0 rotates once at time
50 and the second rotate with the original value fails `TOKEN_INVALID`. -/
theorem refresh_rotation_single_use_witness :
    ∃ res db2,
      AuthService.refreshToken "rt1"
        (generateRefreshToken "u1" dbW envW 0 "rt1" none).2 envW 50 "rt2" =
        .ok (res, db2) ∧
      res.success = true ∧ res.refreshToken = "rt2" ∧
      AuthService.refreshToken "rt1" db2 envW 50 "rt2" =
        .error (appErr "Token de rafraîchissement révoqué" 401 .TOKEN_INVALID) :=
  refresh_rotation_single_use dbW envW "u1" "rt1" "rt2" none 0 50 userW kpActive
    (by decide) rfl rfl rfl (by decide) rfl

/-- C10 (implicit): the rotate operation reports success even when
revocation of the original token fails — the revocation helper catches every
store error and returns `false` leaving the store unchanged, the rotate
caller ignores that boolean, and the new refresh token is persisted before
the old one is revoked, so on a revocation failure the operation still
returns `success` while both the original and the new refresh token remain
live (present and unrevoked) in the store. -/
theorem rotate_success_despite_revocation_failure (db0 : DbState) (env : Env)
    (userId fresh fresh2 : String) (clientId : Option String)
    (now1 now2 : Nat) (user : User) (kp : KeyPair)
    (hf2 : fresh2 ≠ fresh)
    (huser : getUserById db0 userId = some user)
    (hactive : user.active = true)
    (hkey : getActiveKeyPair db0 = some kp)
    (hnotexp : ¬ now1 + env.refreshTokenExpiresDays * 86400000 < now2)
    (hrev : db0.revokeStoreFails = true) :
    (∀ t : String, ∀ n : Nat, revokeRefreshToken t db0 n = (false, db0)) ∧
    ∃ res db2,
      AuthService.refreshToken fresh
        (generateRefreshToken userId db0 env now1 fresh clientId).2 env now2 fresh2 =
        .ok (res, db2) ∧
      res.success = true ∧ res.refreshToken = fresh2 ∧
      (∃ r1, getRefreshTokenByValue db2 fresh = some r1 ∧ r1.revokedAt = none) ∧
      (∃ r2, getRefreshTokenByValue db2 fresh2 = some r2 ∧ r2.revokedAt = none) := by
  have hbe : (fresh2 == fresh) = false := beq_eq_false_iff_ne.mpr hf2
  have huser' : List.find? (fun u => u.id == userId) db0.users = some user := huser
  have hkey' : List.find? (fun k => k.active) db0.keyPairs = some kp := hkey
  refine ⟨fun t n => by simp [revokeRefreshToken, dbRevokeRefreshToken, hrev],
    { success := true,
      accessToken := {
        header := { alg := kp.algorithm, kid := some kp.kid, typ := "JWT" }
        payload := { sub := user.id, email := some user.email,
                     roles := some user.roles, scope := some "openid profile email",
                     purpose := none, iss := env.apiUrl, aud := env.frontendUrl,
                     iat := now2, exp := now2 + env.accessTokenExpiresSecs }
        sig := kp.material }
      refreshToken := fresh2 },
    { db0 with refreshTokens :=
        ⟨fresh2, user.id, clientId, now2 + env.refreshTokenExpiresDays * 86400000, none⟩ ::
        ⟨fresh, userId, clientId, now1 + env.refreshTokenExpiresDays * 86400000, none⟩ ::
        db0.refreshTokens },
    ?_, rfl, rfl,
    ⟨⟨fresh, userId, clientId, now1 + env.refreshTokenExpiresDays * 86400000, none⟩, ?_, rfl⟩,
    ⟨⟨fresh2, user.id, clientId, now2 + env.refreshTokenExpiresDays * 86400000, none⟩, ?_, rfl⟩⟩
  · simp [AuthService.refreshToken, verifyRefreshToken, getRefreshTokenByValue,
      generateRefreshToken, dbCreateRefreshToken, List.find?, hnotexp, getUserById,
      huser', hactive, generateAccessToken, getActiveKeyPair,
      getActiveKeyPairDb, hkey', revokeRefreshToken, dbRevokeRefreshToken, hrev]
  · simp [getRefreshTokenByValue, List.find?, hbe]
  · simp [getRefreshTokenByValue, List.find?]

/-- Witness for C10: on a store whose revoke call fails, a concrete rotate
still succeeds and both tokens stay live. -/
theorem rotate_success_despite_revocation_failure_witness :
    (∀ t : String, ∀ n : Nat, revokeRefreshToken t dbWfail n = (false, dbWfail)) ∧
    ∃ res db2,
      AuthService.refreshToken "rt1"
        (generateRefreshToken "u1" dbWfail envW 0 "rt1" none).2 envW 50 "rt2" =
        .ok (res, db2) ∧
      res.success = true ∧ res.refreshToken = "rt2" ∧
      (∃ r1, getRefreshTokenByValue db2 "rt1" = some r1 ∧ r1.revokedAt = none) ∧
      (∃ r2, getRefreshTokenByValue db2 "rt2" = some r2 ∧ r2.revokedAt = none) :=
  rotate_success_despite_revocation_failure dbWfail envW "u1" "rt1" "rt2" none 0 50
    userW kpActive (by decide) rfl rfl rfl (by decide) rfl

/-- A hosted-platform identity for an email that already has a verified
local user, asserting no `email_verified` flag. -/
def auth0UserCex : Auth0User :=
  { email := some "alice@example.com", email_verified := none,
    given_name := some "Alice", family_name := some "A", name := none, picture := none }

/-- Counterexample to C3: `userW.emailVerified = true` in the store, yet the
hosted-identity-platform sync (`syncAuth0User`) of an identity whose
`email_verified` is unset rewrites the flag to `false` — the sync does
overwrite an already-true email-verified flag. -/
theorem auth0_sync_downgrades_verified_flag_cex :
    (getUserByEmail dbW "alice@example.com").map User.emailVerified = some true ∧
    ∃ u db', Auth0Service.syncAuth0User auth0UserCex dbW "n1" "Gp1" = .ok (u, db') ∧
      u.emailVerified = false ∧
      (getUserByEmail db' "alice@example.com").map User.emailVerified = some false := by
  exact ⟨rfl, _, _, rfl, rfl, rfl⟩

/-- C3 (amended): on the generic OAuth provider path, syncing a federated
identity onto an existing local user updates profile fields only and leaves
the email-verified flag unchanged (in particular never downgrading an
already-true flag); on the hosted-identity-platform path, the sync
overwrites the flag with the identity's `email_verified` value (defaulting
to false), which can downgrade an already-true flag. -/
theorem federated_sync_email_verified_amended
    (db : DbState) (oauthUser : FederatedIdentity) (a0 : Auth0User)
    (u v : User) (em newId genPw newId2 genPw2 : String)
    (hmailO : getUserByEmail db (oauthUser.email.getD "") = some u)
    (hidO : getUserById db u.id = some u)
    (hmailA : a0.email = some em) (hem : em ≠ "")
    (hfound : getUserByEmail db em = some v)
    (hidA : getUserById db v.id = some v) :
    (∃ u' db', OAuthService.syncOAuthUser oauthUser db newId genPw = .ok (u', db') ∧
       u'.emailVerified = u.emailVerified) ∧
    (∃ v' db', Auth0Service.syncAuth0User a0 db newId2 genPw2 = .ok (v', db') ∧
       v'.emailVerified = a0.email_verified.getD false) := by
  constructor
  · simp only [OAuthService.syncOAuthUser, hmailO, updateUser, hidO]
    exact ⟨_, _, rfl, by simp [applyUpdate]⟩
  · simp only [Auth0Service.syncAuth0User, hmailA, hem, if_neg hem, hfound,
      updateUser, hidA]
    exact ⟨_, _, rfl, by simp [applyUpdate]⟩

/-- A raw google profile carrying a verified email. -/
def rawCex : RawUserInfo :=
  { id := some "g1", email := some "alice@example.com", verified_email := some true,
    email_verified := none, given_name := some "Alice", family_name := some "A",
    picture := some "pic", name := none, avatar_url := none }

/-- The normalized federated identity of `rawCex`. -/
def oauthIdCex : FederatedIdentity := OAuthService.normalizeUserInfo "google" rawCex

/-- Witness for the amended C3: concrete syncs on both paths. -/
theorem federated_sync_email_verified_amended_witness :
    (∃ u' db', OAuthService.syncOAuthUser oauthIdCex dbW "n2" "Gp2" = .ok (u', db') ∧
       u'.emailVerified = userW.emailVerified) ∧
    (∃ v' db', Auth0Service.syncAuth0User auth0UserCex dbW "n3" "Gp3" = .ok (v', db') ∧
       v'.emailVerified = auth0UserCex.email_verified.getD false) :=
  federated_sync_email_verified_amended dbW oauthIdCex auth0UserCex userW userW
    "alice@example.com" "n2" "Gp2" "n3" "Gp3" rfl rfl rfl (by decide) rfl rfl

/-- An email-verification token signed with the retired key `kpRetired`,
with correct purpose, issuer, audience and a live expiry. -/
def emailTokRetired : Jwt :=
  { header := { alg := "RS256", kid := some "k1", typ := "JWT" }
    payload := { sub := "u1", email := none, roles := none, scope := none,
                 purpose := some "email_verification", iss := "https://api",
                 aud := "https://front", iat := 0, exp := 86400 }
    sig := 1 }

/-- Counterexample to C4: the retired key is resolvable by its `kid` in the
key directory and the token signed with it is genuinely valid (it verifies
under that key), yet `verifyEmailVerificationToken` — which resolves the
active key instead of the header `kid` — rejects it. -/
theorem email_token_retired_key_cex :
    getKeyPairByKid dbW "k1" = some kpRetired ∧
    kpRetired.active = false ∧
    emailTokRetired.header.kid = some kpRetired.kid ∧
    emailTokRetired.sig = kpRetired.material ∧
    jwtVerify emailTokRetired kpRetired.material envW.apiUrl envW.frontendUrl 100 =
      .ok emailTokRetired.payload ∧
    verifyEmailVerificationToken emailTokRetired dbW envW 100 =
      .error (appErr "Token de vérification invalide ou expiré" 401
        .INVALID_VERIFICATION_TOKEN) := by
  refine ⟨rfl, rfl, rfl, rfl, by simp [jwtVerify, envW, emailTokRetired, kpRetired],
    by simp [verifyEmailVerificationToken, getActiveKeyPair, getActiveKeyPairDb, dbW,
      kpRetired, kpActive, jwtVerify, emailTokRetired, envW, appErr]⟩

/-- C4 (amended): access-token verification resolves the signing key by the
header `kid` through the key directory, where retired keys remain
resolvable, so an access token signed with any stored key (active or
retired) still verifies; email-verification-token verification instead
always verifies against the currently active key pair, ignoring the header
`kid`, so an email-verification token whose signature does not come from the
active key fails with `INVALID_VERIFICATION_TOKEN`. -/
theorem key_resolution_amended (tok tok2 : Jwt) (db : DbState) (env : Env)
    (now : Nat) (k : String) (kp akp : KeyPair)
    (hk : tok.header.kid = some k) (hkne : k ≠ "")
    (hres : getKeyPairByKid db k = some kp)
    (hsig : tok.sig = kp.material)
    (hiss : tok.payload.iss = env.apiUrl) (haud : tok.payload.aud = env.frontendUrl)
    (hexp : ¬ tok.payload.exp ≤ now)
    (hact : getActiveKeyPair db = some akp)
    (hsig2 : tok2.sig ≠ akp.material) :
    verifyAccessToken tok db env now = .ok tok.payload ∧
    verifyEmailVerificationToken tok2 db env now =
      .error (appErr "Token de vérification invalide ou expiré" 401
        .INVALID_VERIFICATION_TOKEN) := by
  constructor
  · simp [verifyAccessToken, hk, hkne, hres, jwtVerify, hsig, hiss, haud, hexp]
  · simp [verifyEmailVerificationToken, hact, jwtVerify, hsig2]

/-- An access token signed with the retired key `kpRetired`. -/
def accessTokRetired : Jwt :=
  { header := { alg := "RS256", kid := some "k1", typ := "JWT" }
    payload := { sub := "u1", email := some "alice@example.com", roles := some ["USER"],
                 scope := some "openid profile email", purpose := none,
                 iss := "https://api", aud := "https://front", iat := 0, exp := 900 }
    sig := 1 }

/-- Witness for the amended C4: a concrete retired-key access token verifies
while a concrete retired-key email token is rejected. -/
theorem key_resolution_amended_witness :
    verifyAccessToken accessTokRetired dbW envW 100 = .ok accessTokRetired.payload ∧
    verifyEmailVerificationToken emailTokRetired dbW envW 100 =
      .error (appErr "Token de vérification invalide ou expiré" 401
        .INVALID_VERIFICATION_TOKEN) :=
  key_resolution_amended accessTokRetired emailTokRetired dbW envW 100 "k1" kpRetired
    kpActive rfl (by decide) rfl rfl rfl rfl (by decide) rfl (by decide)

/-- A store-side user update leaves the key pairs unchanged. -/
theorem updateUser_snd_keyPairs (db : DbState) (id : String) (p : UserUpdate) :
    ((updateUser db id p).2).keyPairs = db.keyPairs := by
  unfold updateUser
  cases getUserById db id <;> rfl

/-- A store-side user creation leaves the key pairs unchanged. -/
theorem dbCreateUser_snd_keyPairs (db : DbState) (newId : String) (p : CreateUserPayload) :
    ((dbCreateUser db newId p).2).keyPairs = db.keyPairs := rfl

/-- Synchronizing a hosted-platform identity only touches the user table:
the key pairs of the store are unchanged. -/
theorem syncAuth0User_keyPairs (a0 : Auth0User) (db db' : DbState) (u : User)
    (newId genPw : String)
    (h : Auth0Service.syncAuth0User a0 db newId genPw = .ok (u, db')) :
    db'.keyPairs = db.keyPairs := by
  unfold Auth0Service.syncAuth0User at h
  repeat' split at h
  all_goals simp at h
  all_goals
    rename_i w dbq heq
    obtain ⟨-, h2⟩ := h
    rw [← h2]
    have h5 := congrArg Prod.snd heq
    simp at h5
    rw [← h5]
    first
      | exact updateUser_snd_keyPairs db _ _
      | exact dbCreateUser_snd_keyPairs db _ _

/-- Synchronizing a generic OAuth identity only touches the user table: the
key pairs of the store are unchanged. -/
theorem syncOAuthUser_keyPairs (oauthUser : FederatedIdentity) (db db' : DbState)
    (u : User) (newId genPw : String)
    (h : OAuthService.syncOAuthUser oauthUser db newId genPw = .ok (u, db')) :
    db'.keyPairs = db.keyPairs := by
  unfold OAuthService.syncOAuthUser at h
  repeat' split at h
  all_goals simp at h
  all_goals
    rename_i w dbq heq
    obtain ⟨-, h2⟩ := h
    rw [← h2]
    have h5 := congrArg Prod.snd heq
    simp at h5
    rw [← h5]
    first
      | exact updateUser_snd_keyPairs db _ _
      | exact dbCreateUser_snd_keyPairs db _ _

/-- The token response a concrete provider exchange returned. -/
def providerTokCex : ProviderTokenData :=
  { access_token := "PROVIDER_AT", refresh_token := some "PROVIDER_RT",
    expires_in := some 3600 }

/-- Counterexample to C5: a successful generic-OAuth federated login whose
result, as returned to the caller, carries the provider-issued access and
refresh tokens in its `tokenData` field — the provider tokens are returned
to the caller. -/
theorem oauth_returns_provider_tokens_cex :
    ∃ r db', OAuthService.authenticateWithProvider "google" providerTokCex rawCex dbW
        envW 0 "localRT" "n4" "Gp4" = .ok (r, db') ∧
      r.tokenData.accessToken = "PROVIDER_AT" ∧
      r.tokenData.refreshToken = some "PROVIDER_RT" := by
  exact ⟨_, _, rfl, rfl, rfl⟩

/-- C5 (amended): on the hosted-identity-platform path every successful
federated login returns only this service's own tokens (the access token is
signed with this service's active key with this service's issuer/audience,
and the refresh token is the locally generated opaque value); on the generic
OAuth path the top-level `accessToken`/`refreshToken` of the result are
likewise this service's own tokens, but the result additionally exposes the
provider-issued tokens to the caller under its `tokenData` field. -/
theorem federated_login_token_provenance_amended
    (a0 : Auth0User) (provider : String) (ptd : ProviderTokenData) (raw : RawUserInfo)
    (db : DbState) (env : Env) (now : Nat) (fresh newId genPw : String) (kp : KeyPair)
    (hkey : getActiveKeyPair db = some kp) :
    (∀ r db2, Auth0Service.authenticateWithAuth0 a0 db env now fresh newId genPw =
        .ok (r, db2) →
      r.refreshToken = fresh ∧ r.accessToken.sig = kp.material ∧
      r.accessToken.payload.iss = env.apiUrl ∧
      r.accessToken.payload.aud = env.frontendUrl) ∧
    (∀ r db2, OAuthService.authenticateWithProvider provider ptd raw db env now fresh
        newId genPw = .ok (r, db2) →
      r.refreshToken = fresh ∧ r.accessToken.sig = kp.material ∧
      r.accessToken.payload.iss = env.apiUrl ∧
      r.accessToken.payload.aud = env.frontendUrl ∧
      r.tokenData.accessToken = ptd.access_token ∧
      r.tokenData.refreshToken = ptd.refresh_token) := by
  constructor
  · intro r db2 h
    unfold Auth0Service.authenticateWithAuth0 at h
    cases hs : Auth0Service.syncAuth0User a0 db newId genPw with
    | error e => rw [hs] at h; simp at h
    | ok p =>
      obtain ⟨localUser, db1⟩ := p
      rw [hs] at h
      have hkeys := syncAuth0User_keyPairs a0 db db1 localUser newId genPw hs
      have hkp : getActiveKeyPair db1 = some kp := by
        unfold getActiveKeyPair getActiveKeyPairDb at hkey ⊢
        rw [hkeys]; exact hkey
      simp only [generateAccessToken, hkp, generateRefreshToken, dbCreateRefreshToken,
        Except.ok.injEq, Prod.mk.injEq] at h
      obtain ⟨h1, -⟩ := h
      simp [← h1]
  · intro r db2 h
    unfold OAuthService.authenticateWithProvider at h
    split at h
    · exact absurd h (by simp)
    · split at h
      · exact absurd h (by simp)
      · cases hs : OAuthService.syncOAuthUser
            (OAuthService.normalizeUserInfo provider raw) db newId genPw with
        | error e => rw [hs] at h; simp at h
        | ok p =>
          obtain ⟨localUser, db1⟩ := p
          rw [hs] at h
          have hkeys := syncOAuthUser_keyPairs _ db db1 localUser newId genPw hs
          have hkp : getActiveKeyPair db1 = some kp := by
            unfold getActiveKeyPair getActiveKeyPairDb at hkey ⊢
            rw [hkeys]; exact hkey
          simp only [generateAccessToken, hkp, generateRefreshToken, dbCreateRefreshToken,
            Except.ok.injEq, Prod.mk.injEq] at h
          obtain ⟨h1, -⟩ := h
          simp [← h1]

/-- Witness for the amended C5: concrete successful logins on both paths. -/
theorem federated_login_token_provenance_amended_witness :
    (∃ r db2, Auth0Service.authenticateWithAuth0 auth0UserCex dbW envW 0 "frt" "n5"
        "Gp5" = .ok (r, db2) ∧
      r.refreshToken = "frt" ∧ r.accessToken.sig = kpActive.material) ∧
    (∃ r db2, OAuthService.authenticateWithProvider "google" providerTokCex rawCex dbW
        envW 0 "frt2" "n6" "Gp6" = .ok (r, db2) ∧
      r.refreshToken = "frt2" ∧ r.accessToken.sig = kpActive.material ∧
      r.tokenData.accessToken = providerTokCex.access_token) := by
  constructor
  · refine ⟨_, _, rfl, ?_⟩
    have h := (federated_login_token_provenance_amended auth0UserCex "google"
      providerTokCex rawCex dbW envW 0 "frt" "n5" "Gp5" kpActive rfl).1 _ _ rfl
    exact ⟨h.1, h.2.1⟩
  · refine ⟨_, _, rfl, ?_⟩
    have h := (federated_login_token_provenance_amended auth0UserCex "google"
      providerTokCex rawCex dbW envW 0 "frt2" "n6" "Gp6" kpActive rfl).2 _ _ rfl
    exact ⟨h.1, h.2.1, h.2.2.2.2.1⟩
